import Mathlib

/-!
Verification of wqdemo, a Linux wait-queue start-up / shut-down rendezvous.

Shallow embedding of `src/wq_example.c`.  The module has two entry points run
by the supervising context (`init_wqdemo`, `exit_wqdemo`) and one kernel
thread body (`wqdemo_thread_fn`).  The three C functions are embedded as small
step functions over one explicit shared state; a schedule (a list of thread
ids) picks which context performs its next statement, so every sequentially
consistent interleaving of the two contexts is a run of the model.

Program counters are named after the source line of the statement that is
about to execute.  `wait_event` is unfolded into the loop that the comment at
lines 71-78 of the source gives for it.

Modelling choices for what the source only calls:
* a task blocked in `schedule()` is a context whose step is disabled until its
  task state is TASK_RUNNING again; `wait_for_completion` is disabled until the
  completion has fired;
* `do_exit` writes the exit status, retires `vfork_done` and fires the
  completion in one step (the specification's "atomically clears/publishes");
  the thread's own reference is dropped in a later step;
* the timed sleep may end at any moment and its return value is a parameter of
  the environment;
* every call is recorded, with its caller, in a history kept in the state; the
  kernel log is the sub-sequence of printed lines.
-/

namespace WqDemo

/-- The two scheduling contexts: the supervisor (module loader) and the kthread. -/
inductive Tid
  | sup
  | worker
  deriving DecidableEq, Repr

/-- Scheduler state of a task (`task_struct.state`). -/
inductive TaskRun
  | TASK_RUNNING
  | TASK_INTERRUPTIBLE
  | TASK_UNINTERRUPTIBLE
  | TASK_DEAD
  deriving DecidableEq, Repr

/-- Value of the global `wqdemo_thread`: zero-initialised, an `ERR_PTR(-e)`,
or a pointer to the (single) worker `task_struct`. -/
inductive TaskPtr
  | null
  | err (e : Nat)
  | task
  deriving DecidableEq, Repr

/-- The three functions of the source file. -/
inductive Func
  | init_wqdemo
  | wqdemo_thread_fn
  | exit_wqdemo
  deriving DecidableEq, Repr

/-- The four messages the source can print. -/
inductive LogLine
  | failed_to_start (e : Int)
  | woke_up
  | waited
  | exited_with (ret : Int)
  deriving DecidableEq, Repr

/-- Calls and shared accesses performed by the code, recorded in program order. -/
inductive Op
  | kthread_create (r : TaskPtr)
  | get_task_struct
  | wake_up_process
  | prepare_to_wait
  | atomic_read (v : Int)
  | schedule
  | finish_wait
  | returned (v : Int)
  | atomic_set (v : Int)
  | waitqueue_active (b : Bool)
  | wake_up
  | msleep_interruptible (left : Nat)
  | do_exit (code : Int)
  | release
  | load_vfork_done (v : Bool)
  | wait_for_completion
  | read_exit_code (v : Int)
  | put_task_struct
  | pr (l : LogLine)
  | bad_deref
  deriving DecidableEq, Repr

/-- Program counter of the supervisor; `lN` is "about to execute line N". -/
inductive SupPc
  | l50
  | l53
  | l62
  | l63
  | prepare
  | check
  | sched
  | finish
  | l105
  | loaded
  | l139
  | l140
  | l141
  | l142
  | l143
  | l145
  | l149
  | l150
  | unloaded
  | oops
  deriving DecidableEq, Repr

/-- Program counter of the worker thread. -/
inductive WorkPc
  | absent
  | l24
  | l26
  | l27
  | l31
  | sleeping
  | l32
  | l33
  | zombie
  | dead
  deriving DecidableEq, Repr

/-- Position of a supervisor program point in program order. -/
def SupPc.idx : SupPc → Nat
  | .l50 => 0
  | .l53 => 1
  | .l62 => 2
  | .l63 => 3
  | .prepare => 4
  | .check => 5
  | .sched => 6
  | .finish => 7
  | .l105 => 8
  | .loaded => 9
  | .l139 => 10
  | .l140 => 11
  | .l141 => 12
  | .l142 => 13
  | .l143 => 14
  | .l145 => 15
  | .l149 => 16
  | .l150 => 17
  | .unloaded => 18
  | .oops => 19

/-- Position of a worker program point in program order. -/
def WorkPc.idx : WorkPc → Nat
  | .absent => 0
  | .l24 => 1
  | .l26 => 2
  | .l27 => 3
  | .l31 => 4
  | .sleeping => 5
  | .l32 => 6
  | .l33 => 7
  | .zombie => 8
  | .dead => 9

/-- What the environment decides: the outcome of `kthread_create`
(`none`: a task is created, `some e`: `ERR_PTR(-e)`), the value
`msleep_interruptible` returns, and the content of the fresh task's
`exit_code` field before `do_exit` writes it. -/
structure Env where
  spawn : Option Nat
  sleep_left : Nat
  stale_exit : Int
  deriving DecidableEq, Repr

/-- Module-wide variables, the worker's `task_struct`, both contexts' control
state, and the recorded history. -/
structure State where
  wqdemo_wq : List Tid
  wqdemo_thread : TaskPtr
  wqdemo_thread_started : Int
  usage : Nat
  vfork_done : Bool
  done : Bool
  exit_code : Int
  freed : Bool
  wtask : TaskRun
  wpc : WorkPc
  stask : TaskRun
  spc : SupPc
  vfork : Bool
  ret : Int
  init_ret : Option Int
  trace : List (Func × Op)
  deriving DecidableEq, Repr

/-- State at module load: globals zeroed, no worker, supervisor at line 50. -/
def State.boot : State where
  wqdemo_wq := []
  wqdemo_thread := .null
  wqdemo_thread_started := 0
  usage := 0
  vfork_done := false
  done := false
  exit_code := 0
  freed := false
  wtask := .TASK_DEAD
  wpc := .absent
  stask := .TASK_RUNNING
  spc := .l50
  vfork := false
  ret := 0
  init_ret := none
  trace := []

/-- Append one recorded operation to the history. -/
def State.emit (s : State) (f : Func) (o : Op) : State :=
  { s with trace := s.trace ++ [(f, o)] }

/-- Kernel macro IS_ERR: does the pointer encode an error. -/
def IS_ERR : TaskPtr → Bool
  | .err _ => true
  | _ => false

/-- Kernel macro PTR_ERR: the (negative) error number an error pointer encodes. -/
def PTR_ERR : TaskPtr → Int
  | .err e => - (e : Int)
  | _ => 0

/-- Modelled from the spec: `kthread_create` (kernel, not in src/).  On success
a WorkerHandle exists, holding the worker's own implicit reference and an
unfired, unretired CompletionSignal; the new thread is parked until it is first
woken.  On failure the result is an error pointer and nothing is created. -/
def kthread_create (env : Env) (s : State) : State :=
  match env.spawn with
  | some e => { s with wqdemo_thread := .err e }
  | none =>
    { s with
      wqdemo_thread := .task
      usage := 1
      vfork_done := true
      done := false
      exit_code := env.stale_exit
      freed := false
      wtask := .TASK_UNINTERRUPTIBLE
      wpc := .l24 }

/-- Modelled from the spec: `try_to_wake_up` (kernel, not in src/): a task that
is parked (interruptibly or not) becomes runnable; any other task is left as
it is ("resuming an already-runnable or already-terminated worker is a no-op"). -/
def try_to_wake_up : TaskRun → TaskRun
  | .TASK_INTERRUPTIBLE => .TASK_RUNNING
  | .TASK_UNINTERRUPTIBLE => .TASK_RUNNING
  | t => t

/-- Modelled from the spec: `get_task_struct` (kernel, not in src/): one more
reference on the WorkerHandle. -/
def get_task_struct (s : State) : State :=
  { s with usage := s.usage + 1 }

/-- Modelled from the spec: `put_task_struct` (kernel, not in src/): one
reference less; the WorkerHandle is destroyed when the count reaches 0. -/
def put_task_struct (s : State) : State :=
  { s with usage := s.usage - 1, freed := s.freed || decide (s.usage - 1 = 0) }

/-- Modelled from the spec: `wake_up_process` on the worker (kernel, not in src/). -/
def wake_up_process (s : State) : State :=
  { s with wtask := try_to_wake_up s.wtask }

/-- Modelled from the spec: `waitqueue_active` (kernel, not in src/): is any
waiter registered on the queue. -/
def waitqueue_active (q : List Tid) : Bool :=
  !q.isEmpty

/-- Modelled from the spec: `wake_up` on `wqdemo_wq` (kernel, not in src/):
"wakes all waiters"; per the source comment the wake function of an entry made
by DEFINE_WAIT awakens the task and removes the entry from the queue. -/
def wake_up (s : State) : State :=
  { s with
    stask := if Tid.sup ∈ s.wqdemo_wq then try_to_wake_up s.stask else s.stask
    wtask := if Tid.worker ∈ s.wqdemo_wq then try_to_wake_up s.wtask else s.wtask
    wqdemo_wq := [] }

/-- Modelled from the spec: `prepare_to_wait(.., TASK_UNINTERRUPTIBLE)` by the
supervisor (kernel, not in src/); per the source comment it sets the process
state and inserts the wait entry into the queue. -/
def prepare_to_wait (s : State) : State :=
  { s with
    stask := .TASK_UNINTERRUPTIBLE
    wqdemo_wq := if Tid.sup ∈ s.wqdemo_wq then s.wqdemo_wq else Tid.sup :: s.wqdemo_wq }

/-- Modelled from the spec: `finish_wait` by the supervisor (kernel, not in
src/); per the source comment it sets the state to TASK_RUNNING again and
removes the wait entry unless the wake function already did. -/
def finish_wait (s : State) : State :=
  { s with stask := .TASK_RUNNING, wqdemo_wq := s.wqdemo_wq.filter (fun t => decide (t ≠ Tid.sup)) }

/-- Modelled from the spec: `do_exit(code)` (kernel, not in src/): "atomically
clears/publishes the CompletionSignal as fired with the task's exit status";
the worker's own reference is released afterwards, in a step of its own. -/
def do_exit (code : Int) (s : State) : State :=
  { s with exit_code := code, vfork_done := false, done := true, wtask := .TASK_DEAD }

/-- The worker handle can be dereferenced: it points to a task that has not
been destroyed. -/
def State.deref_ok (s : State) : Bool :=
  decide (s.wqdemo_thread = .task) && !s.freed

/-- One statement of `init_wqdemo` (lines 47-106), `wait_event` unfolded as in
the source comment. -/
def init_wqdemo (env : Env) (s : State) : Option State :=
  match s.spc with
  | .l50 =>
    let s0 : State := { s with wqdemo_wq := [] }
    let s1 := kthread_create env s0
    let s2 := s1.emit .init_wqdemo (.kthread_create s1.wqdemo_thread)
    some { s2 with spc := if IS_ERR s2.wqdemo_thread then .l53 else .l62 }
  | .l53 =>
    some { s.emit .init_wqdemo (.pr (.failed_to_start (- PTR_ERR s.wqdemo_thread))) with
           spc := .l105 }
  | .l62 =>
    some { (get_task_struct s).emit .init_wqdemo .get_task_struct with spc := .l63 }
  | .l63 =>
    some { (wake_up_process s).emit .init_wqdemo .wake_up_process with spc := .prepare }
  | .prepare =>
    some { (prepare_to_wait s).emit .init_wqdemo .prepare_to_wait with spc := .check }
  | .check =>
    some { s.emit .init_wqdemo (.atomic_read s.wqdemo_thread_started) with
           spc := if s.wqdemo_thread_started ≠ 0 then .finish else .sched }
  | .sched =>
    if s.stask = .TASK_RUNNING then
      some { s.emit .init_wqdemo .schedule with spc := .prepare }
    else none
  | .finish =>
    some { (finish_wait s).emit .init_wqdemo .finish_wait with spc := .l105 }
  | .l105 =>
    some { s.emit .init_wqdemo (.returned 0) with spc := .loaded, init_ret := some 0 }
  | _ => none

/-- One statement of `exit_wqdemo` (lines 108-151); the first step is the host
calling the function on a loaded module. -/
def exit_wqdemo (s : State) : Option State :=
  match s.spc with
  | .loaded => some { s with spc := .l139 }
  | .l139 =>
    if s.deref_ok then
      some { s.emit .exit_wqdemo (.load_vfork_done s.vfork_done) with
             vfork := s.vfork_done, spc := .l140 }
    else some { s.emit .exit_wqdemo .bad_deref with spc := .oops }
  | .l140 => some { s with spc := if s.vfork then .l141 else .l145 }
  | .l141 =>
    if s.deref_ok then
      some { (wake_up_process s).emit .exit_wqdemo .wake_up_process with spc := .l142 }
    else some { s.emit .exit_wqdemo .bad_deref with spc := .oops }
  | .l142 =>
    if s.done then
      some { s.emit .exit_wqdemo .wait_for_completion with spc := .l143 }
    else none
  | .l143 => some { s.emit .exit_wqdemo (.pr .waited) with spc := .l145 }
  | .l145 =>
    if s.deref_ok then
      some { s.emit .exit_wqdemo (.read_exit_code s.exit_code) with
             ret := s.exit_code, spc := .l149 }
    else some { s.emit .exit_wqdemo .bad_deref with spc := .oops }
  | .l149 =>
    if s.deref_ok then
      some { (put_task_struct s).emit .exit_wqdemo .put_task_struct with spc := .l150 }
    else some { s.emit .exit_wqdemo .bad_deref with spc := .oops }
  | .l150 => some { s.emit .exit_wqdemo (.pr (.exited_with s.ret)) with spc := .unloaded }
  | _ => none

/-- One statement of `wqdemo_thread_fn` (lines 22-34).  The thread runs only
once it has been woken; its timed sleep ends on its own (timer or wake-up) and
yields `env.sleep_left`, which the code discards.  After `do_exit` the kernel
drops the thread's own reference. -/
def wqdemo_thread_fn (env : Env) (s : State) : Option State :=
  match s.wpc with
  | .absent => none
  | .l24 =>
    if s.wtask = .TASK_RUNNING then
      some { s.emit .wqdemo_thread_fn (.atomic_set 1) with
             wqdemo_thread_started := 1, wpc := .l26 }
    else none
  | .l26 =>
    if s.wtask = .TASK_RUNNING then
      some { s.emit .wqdemo_thread_fn (.waitqueue_active (waitqueue_active s.wqdemo_wq)) with
             wpc := if waitqueue_active s.wqdemo_wq then .l27 else .l31 }
    else none
  | .l27 =>
    if s.wtask = .TASK_RUNNING then
      some { (wake_up s).emit .wqdemo_thread_fn .wake_up with wpc := .l31 }
    else none
  | .l31 =>
    if s.wtask = .TASK_RUNNING then
      some { s with wtask := .TASK_INTERRUPTIBLE, wpc := .sleeping }
    else none
  | .sleeping =>
    some { s.emit .wqdemo_thread_fn (.msleep_interruptible env.sleep_left) with
           wtask := .TASK_RUNNING, wpc := .l32 }
  | .l32 =>
    if s.wtask = .TASK_RUNNING then
      some { s.emit .wqdemo_thread_fn (.pr .woke_up) with wpc := .l33 }
    else none
  | .l33 =>
    if s.wtask = .TASK_RUNNING then
      some { (do_exit 0 s).emit .wqdemo_thread_fn (.do_exit 0) with wpc := .zombie }
    else none
  | .zombie =>
    some { (put_task_struct s).emit .wqdemo_thread_fn .release with wpc := .dead }
  | .dead => none

/-- One step of the whole system: the chosen context executes its next statement
(`none` when that context is blocked or has nothing left to do). -/
def step (env : Env) (s : State) (t : Tid) : Option State :=
  match t with
  | .sup =>
    match init_wqdemo env s with
    | some s' => some s'
    | none => exit_wqdemo s
  | .worker => wqdemo_thread_fn env s

/-- Run a schedule from a state; `none` if some chosen context could not step. -/
def run (env : Env) (s : State) : List Tid → Option State
  | [] => some s
  | t :: ts =>
    match step env s t with
    | some s' => run env s' ts
    | none => none

/-- States reachable from module load under some interleaving. -/
inductive Reachable (env : Env) : State → Prop
  | boot : Reachable env State.boot
  | next {s s' : State} (t : Tid) : Reachable env s → step env s t = some s' → Reachable env s'

/-- States reachable from a given state. -/
inductive ReachableFrom (env : Env) (s0 : State) : State → Prop
  | refl : ReachableFrom env s0 s0
  | next {s s' : State} (t : Tid) :
      ReachableFrom env s0 s → step env s t = some s' → ReachableFrom env s0 s'

/-- The kernel log: the printed lines of the history, in order. -/
def klog (tr : List (Func × Op)) : List (Func × LogLine) :=
  tr.filterMap fun e =>
    match e.2 with
    | .pr l => some (e.1, l)
    | _ => none

/-- The operations one function performed, in order. -/
def ops_of (f : Func) (tr : List (Func × Op)) : List Op :=
  (tr.filter fun e => decide (e.1 = f)).map Prod.snd

/-- History that `exit_wqdemo` has produced when the supervisor is at `pc`. -/
def exit_ops (pc : SupPc) (vfork : Bool) (ret : Int) : List Op :=
  match pc with
  | .l140 => [.load_vfork_done vfork]
  | .l141 => [.load_vfork_done vfork]
  | .l142 => [.load_vfork_done vfork, .wake_up_process]
  | .l143 => [.load_vfork_done vfork, .wake_up_process, .wait_for_completion]
  | .l145 =>
    .load_vfork_done vfork ::
      (if vfork then [.wake_up_process, .wait_for_completion, .pr .waited] else [])
  | .l149 =>
    .load_vfork_done vfork ::
      (if vfork then [.wake_up_process, .wait_for_completion, .pr .waited] else [])
      ++ [.read_exit_code ret]
  | .l150 =>
    .load_vfork_done vfork ::
      (if vfork then [.wake_up_process, .wait_for_completion, .pr .waited] else [])
      ++ [.read_exit_code ret, .put_task_struct]
  | .unloaded =>
    .load_vfork_done vfork ::
      (if vfork then [.wake_up_process, .wait_for_completion, .pr .waited] else [])
      ++ [.read_exit_code ret, .put_task_struct, .pr (.exited_with ret)]
  | .oops => [.bad_deref]
  | _ => []

/-- Lines `exit_wqdemo` has printed when the supervisor is at `pc`. -/
def exit_log (pc : SupPc) (vfork : Bool) (ret : Int) : List (Func × LogLine) :=
  match pc with
  | .l145 => if vfork then [(.exit_wqdemo, .waited)] else []
  | .l149 => if vfork then [(.exit_wqdemo, .waited)] else []
  | .l150 => if vfork then [(.exit_wqdemo, .waited)] else []
  | .unloaded =>
    (if vfork then [(.exit_wqdemo, .waited)] else []) ++ [(.exit_wqdemo, .exited_with ret)]
  | _ => []

/-- Lines `init_wqdemo` has printed when the supervisor is at `pc`. -/
def init_log (spawn : Option Nat) (pc : SupPc) : List (Func × LogLine) :=
  match spawn with
  | none => []
  | some e => if 2 ≤ pc.idx then [(.init_wqdemo, .failed_to_start e)] else []

/-- Lines the worker has printed when it is at `pc`. -/
def worker_log (pc : WorkPc) : List (Func × LogLine) :=
  if 7 ≤ pc.idx then [(.wqdemo_thread_fn, .woke_up)] else []

/-- References held by the supervisor at `pc` on the success path. -/
def SupPc.refs (pc : SupPc) : Nat :=
  if 3 ≤ pc.idx ∧ pc.idx ≤ 16 then 1 else 0

/-- References held by the worker at `pc`. -/
def WorkPc.refs (pc : WorkPc) : Nat :=
  if 1 ≤ pc.idx ∧ pc.idx ≤ 8 then 1 else 0

/-- Inductive invariant of the system: what each shared variable, each task
state and the recorded history can be at every combination of program points. -/
structure Inv (env : Env) (s : State) : Prop where
  ptr_eq : s.wqdemo_thread =
    if s.spc = .l50 then .null else (match env.spawn with | none => .task | some e => .err e)
  path_fail : env.spawn ≠ none →
    (s.spc.idx ≤ 1 ∨ (8 ≤ s.spc.idx ∧ s.spc.idx ≤ 10) ∨ s.spc.idx = 19) ∧ s.wpc = .absent
  path_ok : env.spawn = none → s.spc.idx ≠ 1 ∧ s.spc.idx ≠ 19 ∧ (s.spc.idx ≠ 0 → 1 ≤ s.wpc.idx)
  boot_absent : s.spc = .l50 → s.wpc = .absent
  flag_set : 2 ≤ s.wpc.idx → s.wqdemo_thread_started = 1
  flag_clear : s.wpc.idx ≤ 1 → s.wqdemo_thread_started = 0
  ready : env.spawn = none → 7 ≤ s.spc.idx → 2 ≤ s.wpc.idx
  wq_shape : s.wqdemo_wq = [] ∨ s.wqdemo_wq = [Tid.sup]
  wq_out : s.spc.idx < 5 ∨ 7 < s.spc.idx → s.wqdemo_wq = []
  stask_shape : s.stask = .TASK_RUNNING ∨ s.stask = .TASK_UNINTERRUPTIBLE
  stask_out : s.spc.idx < 5 ∨ 7 < s.spc.idx → s.stask = .TASK_RUNNING
  queued : 5 ≤ s.spc.idx → s.spc.idx ≤ 6 → s.stask = .TASK_UNINTERRUPTIBLE →
    s.wqdemo_wq = [Tid.sup]
  woken : 5 ≤ s.spc.idx → s.spc.idx ≤ 7 → s.stask = .TASK_RUNNING → s.wqdemo_wq = []
  parked : s.spc = .sched → s.stask = .TASK_UNINTERRUPTIBLE → s.wpc.idx ≤ 3
  unwoken : env.spawn = none → 1 ≤ s.spc.idx → s.spc.idx ≤ 3 →
    s.wpc = .l24 ∧ s.wtask = .TASK_UNINTERRUPTIBLE
  wrun : 1 ≤ s.wpc.idx → s.wpc.idx ≤ 7 → s.wpc.idx ≠ 5 → 4 ≤ s.spc.idx →
    s.wtask = .TASK_RUNNING
  wdead : 8 ≤ s.wpc.idx → s.wtask = .TASK_DEAD
  usage_eq : s.usage = if s.wqdemo_thread = .task then s.wpc.refs + s.spc.refs else 0
  freed_iff : s.freed = decide (s.wqdemo_thread = .task ∧ s.usage = 0)
  vfork_live : s.vfork_done = decide (1 ≤ s.wpc.idx ∧ s.wpc.idx ≤ 7)
  done_iff : s.done = decide (8 ≤ s.wpc.idx)
  code_set : 8 ≤ s.wpc.idx → s.exit_code = 0
  code_stale : 1 ≤ s.wpc.idx → s.wpc.idx ≤ 7 → s.exit_code = env.stale_exit
  loaded_null : s.spc = .l140 → s.vfork = false → 8 ≤ s.wpc.idx
  loaded_some : 12 ≤ s.spc.idx → s.spc.idx ≤ 14 → s.vfork = true
  past_wait : 14 ≤ s.spc.idx → s.spc.idx ≤ 18 → 8 ≤ s.wpc.idx
  ret_zero : 16 ≤ s.spc.idx → s.spc.idx ≤ 18 → s.ret = 0
  init_ret_some : 9 ≤ s.spc.idx → s.init_ret = some 0
  init_ret_none : s.spc.idx ≤ 8 → s.init_ret = none
  exit_hist : ops_of .exit_wqdemo s.trace = exit_ops s.spc s.vfork s.ret
  log_hist : klog s.trace =
    init_log env.spawn s.spc ++ worker_log s.wpc ++ exit_log s.spc s.vfork s.ret

/-- An environment in which spawning succeeds, the worker's sleep is cut short
with 3 time units left, and the fresh task's exit_code field holds 7. -/
def env_ok : Env := { spawn := none, sleep_left := 3, stale_exit := 7 }

/-- Schedule: the supervisor reaches wait_event, then the worker sets the flag. -/
def sched_flag_first : List Tid := [.sup, .sup, .sup, .worker]

/-- Schedule: the supervisor checks the flag (0) first, the worker then signals
and wakes it, and init_wqdemo returns. -/
def sched_loaded : List Tid :=
  [.sup, .sup, .sup, .sup, .sup, .worker, .worker, .worker, .sup, .sup, .sup, .sup, .sup]

/-- Schedule: the worker runs up to its timed sleep while the supervisor is
about to enter wait_event. -/
def sched_sleeping : List Tid := [.sup, .sup, .sup, .worker, .worker, .worker]

/-- Schedule: a complete run in which exit_wqdemo finds the worker alive,
nudges it and waits for its completion. -/
def sched_waited : List Tid :=
  [.sup, .sup, .sup, .sup, .sup, .worker, .worker, .worker, .sup, .sup, .sup, .sup, .sup,
   .sup, .sup, .sup, .sup, .worker, .worker, .worker, .worker, .sup, .sup, .sup, .sup, .sup,
   .worker]

/-- Schedule: init_wqdemo returns, the worker enters its timed sleep, and
exit_wqdemo loads a non-NULL vfork_done and stands at line 141, about to nudge
the sleeping worker. -/
def sched_nudge : List Tid :=
  [.sup, .sup, .sup, .sup, .sup, .worker, .worker, .worker, .sup, .sup, .sup, .sup, .sup,
   .worker, .sup, .sup, .sup]

/-- Schedule: the worker terminates and drops its own reference before
exit_wqdemo is called; init_wqdemo has returned. -/
def sched_worker_gone : List Tid :=
  [.sup, .sup, .sup, .worker, .worker, .worker, .worker, .worker, .worker, .worker,
   .sup, .sup, .sup, .sup]

/-- Schedule: as sched_worker_gone, followed by the whole of exit_wqdemo. -/
def sched_gone_then_exit : List Tid :=
  sched_worker_gone ++ [.sup, .sup, .sup, .sup, .sup, .sup]

/-- Final state of a schedule run from module load (the boot state if the
schedule asks a blocked context to step). -/
def final (env : Env) (sched : List Tid) : State :=
  (run env State.boot sched).getD State.boot

theorem klog_append_one (tr : List (Func × Op)) (f : Func) (o : Op) :
    klog (tr ++ [(f, o)]) = klog tr ++ (match o with | .pr l => [(f, l)] | _ => []) := by
  unfold klog
  rw [List.filterMap_append]
  cases o <;> rfl

theorem ops_of_append_one (g : Func) (tr : List (Func × Op)) (f : Func) (o : Op) :
    ops_of g (tr ++ [(f, o)]) = ops_of g tr ++ (if f = g then [o] else []) := by
  unfold ops_of
  rw [List.filter_append, List.map_append]
  by_cases h : f = g <;> simp [h]

theorem sup_idx_vals :
    SupPc.l50.idx = 0 ∧
    SupPc.l53.idx = 1 ∧
    SupPc.l62.idx = 2 ∧
    SupPc.l63.idx = 3 ∧
    SupPc.prepare.idx = 4 ∧
    SupPc.check.idx = 5 ∧
    SupPc.sched.idx = 6 ∧
    SupPc.finish.idx = 7 ∧
    SupPc.l105.idx = 8 ∧
    SupPc.loaded.idx = 9 ∧
    SupPc.l139.idx = 10 ∧
    SupPc.l140.idx = 11 ∧
    SupPc.l141.idx = 12 ∧
    SupPc.l142.idx = 13 ∧
    SupPc.l143.idx = 14 ∧
    SupPc.l145.idx = 15 ∧
    SupPc.l149.idx = 16 ∧
    SupPc.l150.idx = 17 ∧
    SupPc.unloaded.idx = 18 ∧
    SupPc.oops.idx = 19 := by
  simp [SupPc.idx]

theorem work_idx_vals :
    WorkPc.absent.idx = 0 ∧
    WorkPc.l24.idx = 1 ∧
    WorkPc.l26.idx = 2 ∧
    WorkPc.l27.idx = 3 ∧
    WorkPc.l31.idx = 4 ∧
    WorkPc.sleeping.idx = 5 ∧
    WorkPc.l32.idx = 6 ∧
    WorkPc.l33.idx = 7 ∧
    WorkPc.zombie.idx = 8 ∧
    WorkPc.dead.idx = 9 := by
  simp [WorkPc.idx]

theorem sup_refs_vals :
    SupPc.l50.refs = 0 ∧
    SupPc.l53.refs = 0 ∧
    SupPc.l62.refs = 0 ∧
    SupPc.l63.refs = 1 ∧
    SupPc.prepare.refs = 1 ∧
    SupPc.check.refs = 1 ∧
    SupPc.sched.refs = 1 ∧
    SupPc.finish.refs = 1 ∧
    SupPc.l105.refs = 1 ∧
    SupPc.loaded.refs = 1 ∧
    SupPc.l139.refs = 1 ∧
    SupPc.l140.refs = 1 ∧
    SupPc.l141.refs = 1 ∧
    SupPc.l142.refs = 1 ∧
    SupPc.l143.refs = 1 ∧
    SupPc.l145.refs = 1 ∧
    SupPc.l149.refs = 1 ∧
    SupPc.l150.refs = 0 ∧
    SupPc.unloaded.refs = 0 ∧
    SupPc.oops.refs = 0 := by
  simp [SupPc.refs, SupPc.idx]

theorem work_refs_vals :
    WorkPc.absent.refs = 0 ∧
    WorkPc.l24.refs = 1 ∧
    WorkPc.l26.refs = 1 ∧
    WorkPc.l27.refs = 1 ∧
    WorkPc.l31.refs = 1 ∧
    WorkPc.sleeping.refs = 1 ∧
    WorkPc.l32.refs = 1 ∧
    WorkPc.l33.refs = 1 ∧
    WorkPc.zombie.refs = 1 ∧
    WorkPc.dead.refs = 0 := by
  simp [WorkPc.refs, WorkPc.idx]

theorem try_to_wake_up_vals :
    try_to_wake_up .TASK_RUNNING = .TASK_RUNNING ∧
    try_to_wake_up .TASK_INTERRUPTIBLE = .TASK_RUNNING ∧
    try_to_wake_up .TASK_UNINTERRUPTIBLE = .TASK_RUNNING ∧
    try_to_wake_up .TASK_DEAD = .TASK_DEAD := by
  simp [try_to_wake_up]


theorem inv_boot (env : Env) : Inv env State.boot := by
  constructor <;> simp [State.boot, sup_idx_vals, work_idx_vals, IS_ERR, sup_refs_vals, work_refs_vals,
    ops_of, klog, exit_ops, exit_log, init_log, worker_log]
  cases env.spawn <;> simp


/- Preservation of the invariant, one lemma per context.  Each proof splits on
the outcome of kthread_create and on the program point of the stepping context,
evaluates the step, and discharges the fields of the invariant one by one. -/

set_option maxHeartbeats 4000000 in
theorem inv_sup (env : Env) (s s' : State) (h : Inv env s)
    (hs : step env s .sup = some s') : Inv env s' := by
  obtain ⟨h1, h2, h3, h4, h5, h6, h7, h8, h9, h10, h11, h12, h13, h14, h15, h16, h17, h18,
    h19, h20, h21, h22, h23, h24, h25, h26, h27, h28, h29, h30, h31⟩ := h
  cases hsp : env.spawn <;> cases hpc : s.spc <;>
    simp [hsp, hpc, sup_idx_vals, sup_refs_vals, exit_ops, exit_log, init_log, IS_ERR] at h1 h2 h3 h4 h5 h6 h7 h8 h9 h10 h11 h12 h13 h14 h15 h16 h17 h18 h19 h20 h21 h22 h23 h24 h25 h26 h27 h28 h29 h30 h31 <;>
    simp [step, init_wqdemo, exit_wqdemo, kthread_create, hsp, hpc, State.emit, sup_idx_vals, IS_ERR, State.deref_ok, *] at hs
  all_goals try (split_ifs at hs)
  all_goals try (simp at hs)
  all_goals try (have hg := hs.1; replace hs := hs.2)
  all_goals
    subst hs
    constructor <;> simp [get_task_struct, put_task_struct, wake_up_process, prepare_to_wait, finish_wait, State.deref_ok, sup_idx_vals, sup_refs_vals, work_idx_vals, work_refs_vals, ops_of_append_one, klog_append_one, exit_ops, exit_log, init_log, worker_log, IS_ERR, PTR_ERR, try_to_wake_up_vals, *] <;> (first | omega | (intros; omega) | (intros; simp_all [try_to_wake_up_vals]; done) |  (intros; simp_all [try_to_wake_up_vals]; omega) | (rcases h8 with h8 | h8 <;> simp [h8]))

set_option maxHeartbeats 4000000 in
theorem inv_worker (env : Env) (s s' : State) (h : Inv env s)
    (hs : step env s .worker = some s') : Inv env s' := by
  obtain ⟨h1, h2, h3, h4, h5, h6, h7, h8, h9, h10, h11, h12, h13, h14, h15, h16, h17, h18,
    h19, h20, h21, h22, h23, h24, h25, h26, h27, h28, h29, h30, h31⟩ := h
  cases hsp : env.spawn <;> cases hpc : s.wpc <;>
    simp [hsp, hpc, work_idx_vals, work_refs_vals, worker_log] at h1 h2 h3 h4 h5 h6 h7 h8 h9 h10 h11 h12 h13 h14 h15 h16 h17 h18 h19 h20 h21 h22 h23 h24 h25 h26 h27 h28 h29 h30 h31 <;>
    simp [step, wqdemo_thread_fn, hsp, hpc, State.emit, work_idx_vals, *] at hs
  all_goals try (split_ifs at hs)
  all_goals try (have hg := hs.1; replace hs := hs.2)
  all_goals
    subst hs
    constructor <;> simp [put_task_struct, wake_up, do_exit, waitqueue_active, sup_idx_vals, sup_refs_vals, work_idx_vals, work_refs_vals, ops_of_append_one, klog_append_one, worker_log, try_to_wake_up_vals, *] <;> (first | omega | (intros; omega) | (intros; simp_all [try_to_wake_up_vals]; done) |  (intros; simp_all [try_to_wake_up_vals]; omega) | skip)
  · rename_i hna
    intro hspc hst
    have hq := h12 (by simp [hspc, sup_idx_vals]) (by simp [hspc, sup_idx_vals]) hst
    simp [hq, waitqueue_active] at hna
  · rcases h8 with h8 | h8 <;> rcases h10 with h10 | h10 <;> simp [h8, h10, try_to_wake_up_vals]
  · intro ha hb
    rcases h10 with h10 | h10
    · rcases h8 with h8 | h8 <;> simp [h8, h10, try_to_wake_up_vals]
    · simp [h12 ha hb h10, h10, try_to_wake_up_vals]
  · intro hspc
    rcases h10 with h10 | h10
    · rcases h8 with h8 | h8 <;> simp [h8, h10, try_to_wake_up_vals]
    · simp [h12 (by simp [hspc, sup_idx_vals]) (by simp [hspc, sup_idx_vals]) h10, h10,
        try_to_wake_up_vals]
  · cases hspc : s.spc <;> simp [hspc, sup_idx_vals, exit_log] at h26 ⊢

theorem ops_of_append (f : Func) (a b : List (Func × Op)) :
    ops_of f (a ++ b) = ops_of f a ++ ops_of f b := by
  simp [ops_of]

theorem reachable_inv (env : Env) (s : State) (h : Reachable env s) : Inv env s := by
  induction h with
  | boot => exact inv_boot env
  | next t _ hs ih =>
    cases t
    · exact inv_sup env _ _ ih hs
    · exact inv_worker env _ _ ih hs

theorem reachable_of_run (env : Env) (sched : List Tid) :
    ∀ s s', Reachable env s → run env s sched = some s' → Reachable env s' := by
  induction sched with
  | nil =>
    intro s s' hr h
    simp [run] at h
    exact h ▸ hr
  | cons t ts ih =>
    intro s s' hr h
    simp only [run] at h
    cases hst : step env s t with
    | none => simp [hst] at h
    | some s1 =>
      simp only [hst] at h
      exact ih s1 s' (Reachable.next t hr hst) h

theorem reachable_final (env : Env) (sched : List Tid)
    (h : run env State.boot sched = some (final env sched)) :
    Reachable env (final env sched) :=
  reachable_of_run env sched State.boot _ Reachable.boot h

theorem spawn_none_of_task (env : Env) (s : State) (h : Inv env s)
    (hok : s.wqdemo_thread = .task) : env.spawn = none := by
  have h1 := h.ptr_eq
  cases hs : env.spawn with
  | none => rfl
  | some e =>
    rw [hok, hs] at h1
    split_ifs at h1

theorem sup_idx_le (pc : SupPc) : pc.idx ≤ 19 := by
  cases pc <;> simp [SupPc.idx]

theorem sup_idx_pos_of_task (env : Env) (s : State) (h : Inv env s)
    (hok : s.wqdemo_thread = .task) : 1 ≤ s.spc.idx := by
  have h1 := h.ptr_eq
  by_contra hc
  have h0 : s.spc = .l50 := by
    cases hpc : s.spc <;> simp [hpc, sup_idx_vals] at hc ⊢
  simp [h0, hok] at h1

theorem sup_in_wait_of_worker_started (env : Env) (s : State) (h : Inv env s)
    (hw : 2 ≤ s.wpc.idx) : 4 ≤ s.spc.idx := by
  have hne : s.wpc ≠ .absent := by
    intro hc
    simp [hc, work_idx_vals] at hw
  have hsp : env.spawn = none := by
    by_contra hc
    exact hne (h.path_fail hc).2
  by_contra hlt
  by_cases h0 : s.spc.idx = 0
  · have hb : s.spc = .l50 := by
      cases hpc : s.spc <;> simp [hpc, sup_idx_vals] at h0 ⊢
    exact hne (h.boot_absent hb)
  · have hun := h.unwoken hsp (by omega) (by omega)
    simp [hun.1, work_idx_vals] at hw

set_option maxHeartbeats 2000000 in
theorem flag_stays (env : Env) (s0 s : State) (hr : ReachableFrom env s0 s)
    (h0 : s0.wqdemo_thread_started = 1) (hpc : s0.spc = .prepare) :
    s.wqdemo_thread_started = 1 ∧ 4 ≤ s.spc.idx ∧ s.spc.idx ≠ 6 := by
  induction hr with
  | refl => simp [h0, hpc, sup_idx_vals]
  | @next a b t _ hs ih =>
    obtain ⟨i1, i2, i3⟩ := ih
    cases t
    · cases hp : a.spc <;>
        simp [hp, sup_idx_vals] at i2 i3 <;>
        simp [step, init_wqdemo, exit_wqdemo, hp, State.emit] at hs
      all_goals try split_ifs at hs
      all_goals try simp at hs
      all_goals try replace hs := hs.2
      all_goals
        subst hs
        simp [sup_idx_vals, prepare_to_wait, finish_wait, wake_up_process, put_task_struct, i1]
      all_goals simp_all
    · cases hp : a.wpc <;>
        simp [step, wqdemo_thread_fn, hp, State.emit] at hs
      all_goals try split_ifs at hs
      all_goals try replace hs := hs.2
      all_goals
        subst hs
        simp [wake_up, do_exit, put_task_struct, i1, i2, i3]

/-- C1 (spawn failure status), evaluated on the code: for every error code e
that kthread_create may return, init_wqdemo prints the failure line, takes no
reference, wakes nobody, never enters the wait loop, and then returns 0, which
is exactly what it returns after a successful start. -/
theorem init_wqdemo_returns_zero_on_spawn_failure (e left : Nat) (stale : Int) :
    run { spawn := some e, sleep_left := left, stale_exit := stale } State.boot
        [.sup, .sup, .sup] =
      some { State.boot with
        wqdemo_thread := .err e
        spc := .loaded
        init_ret := some 0
        trace :=
          [(.init_wqdemo, .kthread_create (.err e)),
           (.init_wqdemo, .pr (.failed_to_start e)),
           (.init_wqdemo, .returned 0)] } ∧
    (final env_ok sched_loaded).wqdemo_thread = .task ∧
    (final env_ok sched_loaded).init_ret = some 0 := by
  refine ⟨?_, by decide, by decide⟩
  simp [run, step, init_wqdemo, exit_wqdemo, kthread_create, State.emit, State.boot, IS_ERR,
    PTR_ERR]

/-- C2 (stop after a failed spawn), evaluated on the code: after kthread_create
failed with any error code e and init_wqdemo returned, the first statement of
exit_wqdemo reads vfork_done through the error pointer; the run ends in the
oops state instead of leaving the state untouched. -/
theorem exit_wqdemo_dereferences_error_pointer (e left : Nat) (stale : Int) :
    run { spawn := some e, sleep_left := left, stale_exit := stale } State.boot
        [.sup, .sup, .sup, .sup, .sup] =
      some { State.boot with
        wqdemo_thread := .err e
        spc := .oops
        init_ret := some 0
        trace :=
          [(.init_wqdemo, .kthread_create (.err e)),
           (.init_wqdemo, .pr (.failed_to_start e)),
           (.init_wqdemo, .returned 0),
           (.exit_wqdemo, .bad_deref)] } := by
  simp [run, step, init_wqdemo, exit_wqdemo, kthread_create, State.emit, State.boot, IS_ERR,
    PTR_ERR, State.deref_ok]

/-- C3 (readiness ordering): in every reachable state, under any interleaving,
if spawn succeeded and init_wqdemo has returned (or is at its return statement),
the worker has executed line 24 and wqdemo_thread_started is 1. -/
theorem readiness_ordering (env : Env) (s : State) (hr : Reachable env s)
    (hok : s.wqdemo_thread = .task) (hret : s.init_ret ≠ none ∨ s.spc = .l105) :
    s.wqdemo_thread_started = 1 ∧ 2 ≤ s.wpc.idx := by
  have h := reachable_inv env s hr
  have hsp := spawn_none_of_task env s h hok
  have hi : 8 ≤ s.spc.idx := by
    rcases hret with hret | hret
    · by_contra hlt
      exact hret (h.init_ret_none (by omega))
    · simp [hret, sup_idx_vals]
  have hw := h.ready hsp (by omega)
  exact ⟨h.flag_set hw, hw⟩

/-- Witness for C3: the run in which the supervisor reads the flag as 0 first
and is woken by the worker. -/
theorem readiness_ordering_witness :
    Reachable env_ok (final env_ok sched_loaded) ∧
    (final env_ok sched_loaded).wqdemo_thread = .task ∧
    (final env_ok sched_loaded).init_ret ≠ none ∧
    (final env_ok sched_loaded).wqdemo_thread_started = 1 ∧
    2 ≤ (final env_ok sched_loaded).wpc.idx :=
  ⟨reachable_final env_ok sched_loaded rfl, by decide, by decide,
    readiness_ordering env_ok (final env_ok sched_loaded)
      (reachable_final env_ok sched_loaded rfl) (by decide) (Or.inl (by decide))⟩

/-- C4 (no missed wakeup): no reachable state has the flag at 1, the worker past
its wake step (at line 31 or later) and the supervisor blocked in schedule() in
state TASK_UNINTERRUPTIBLE.  Moreover, when the supervisor is at prepare_to_wait
with the flag already 1, no state reachable from there has it at schedule(), and
three supervisor steps of its own take it out of wait_event. -/
theorem no_missed_wakeup (env : Env) (s : State) (hr : Reachable env s) :
    ¬ (s.wqdemo_thread_started = 1 ∧ 4 ≤ s.wpc.idx ∧ s.spc = .sched ∧
        s.stask = .TASK_UNINTERRUPTIBLE) ∧
    (s.spc = .prepare → s.wqdemo_thread_started = 1 →
      (∀ s', ReachableFrom env s s' → s'.spc ≠ .sched) ∧
      ∃ s3, run env s [.sup, .sup, .sup] = some s3 ∧ s3.spc = .l105) := by
  have h := reachable_inv env s hr
  refine ⟨?_, ?_⟩
  · rintro ⟨_, hw, hpc, hst⟩
    have := h.parked hpc hst
    omega
  · intro hpc hflag
    refine ⟨?_, ?_⟩
    · intro s' hr' hs'
      have := (flag_stays env s s' hr' hflag hpc).2.2
      simp [hs', sup_idx_vals] at this
    · simp [run, step, init_wqdemo, exit_wqdemo, hpc, State.emit, prepare_to_wait, hflag]

/-- Witness for C4: the worker sets the flag before the supervisor enters
wait_event. -/
theorem no_missed_wakeup_witness :
    Reachable env_ok (final env_ok sched_flag_first) ∧
    (final env_ok sched_flag_first).spc = .prepare ∧
    (final env_ok sched_flag_first).wqdemo_thread_started = 1 ∧
    (¬ ((final env_ok sched_flag_first).wqdemo_thread_started = 1 ∧
        4 ≤ (final env_ok sched_flag_first).wpc.idx ∧
        (final env_ok sched_flag_first).spc = .sched ∧
        (final env_ok sched_flag_first).stask = .TASK_UNINTERRUPTIBLE) ∧
     ((final env_ok sched_flag_first).spc = .prepare →
      (final env_ok sched_flag_first).wqdemo_thread_started = 1 →
      (∀ s', ReachableFrom env_ok (final env_ok sched_flag_first) s' → s'.spc ≠ .sched) ∧
      ∃ s3, run env_ok (final env_ok sched_flag_first) [.sup, .sup, .sup] = some s3 ∧
        s3.spc = .l105)) :=
  ⟨reachable_final env_ok sched_flag_first rfl, by decide, by decide,
    no_missed_wakeup env_ok (final env_ok sched_flag_first)
      (reachable_final env_ok sched_flag_first rfl)⟩

/-- C5 (shutdown waits for termination): after a successful spawn, in every
reachable state where exit_wqdemo has returned the worker's completion has fired
and the worker is past do_exit.  When the load of vfork_done was non-NULL, the
history of exit_wqdemo is: load, wake_up_process, one wait_for_completion, the
"waited" line, read of exit_code, put_task_struct, final line.  The branch at
line 140 goes to the nudge at line 141 exactly when the loaded pointer is
non-NULL; the step at line 141 is always enabled, applies wake_up_process to the
worker (a worker parked in its sleep becomes TASK_RUNNING, any other worker is
left as it is, nothing else changes) and leads to the wait at line 142.  At line
142 the supervisor cannot step while the completion has not fired, it steps to
line 143 once it has, and every state beyond line 142 has it fired. -/
theorem shutdown_waits_for_termination (env : Env) (s : State) (hr : Reachable env s)
    (hok : s.wqdemo_thread = .task) :
    (s.spc = .unloaded → s.done = true ∧ 8 ≤ s.wpc.idx) ∧
    (s.spc = .unloaded → s.vfork = true →
      ops_of .exit_wqdemo s.trace =
        [.load_vfork_done true, .wake_up_process, .wait_for_completion, .pr .waited,
         .read_exit_code 0, .put_task_struct, .pr (.exited_with 0)]) ∧
    (s.spc = .l142 → s.done = false → step env s .sup = none) ∧
    (14 ≤ s.spc.idx → s.done = true) ∧
    (s.spc = .l140 →
      step env s .sup = some { s with spc := if s.vfork then .l141 else .l145 }) ∧
    (s.spc = .l141 →
      step env s .sup =
        some { s with
          spc := .l142
          wtask := try_to_wake_up s.wtask
          trace := s.trace ++ [(.exit_wqdemo, .wake_up_process)] } ∧
      (s.wtask = .TASK_INTERRUPTIBLE ∨ s.wtask = .TASK_UNINTERRUPTIBLE →
        ∃ s', step env s .sup = some s' ∧ s'.wtask = .TASK_RUNNING)) ∧
    (s.spc = .l142 → s.done = true →
      step env s .sup =
        some { s with
          spc := .l143
          trace := s.trace ++ [(.exit_wqdemo, .wait_for_completion)] }) := by
  have h := reachable_inv env s hr
  have hsp := spawn_none_of_task env s h hok
  have hpast : 14 ≤ s.spc.idx → 8 ≤ s.wpc.idx := by
    intro h14
    have := (h.path_ok hsp).2.1
    have := sup_idx_le s.spc
    exact h.past_wait h14 (by omega)
  refine ⟨?_, ?_, ?_, ?_, ?_, ?_, ?_⟩
  · intro hpc
    have hw := hpast (by simp [hpc, sup_idx_vals])
    exact ⟨by simp [h.done_iff, hw], hw⟩
  · intro hpc hv
    have hret := h.ret_zero (by simp [hpc, sup_idx_vals]) (by simp [hpc, sup_idx_vals])
    have := h.exit_hist
    simpa [hpc, hv, hret, exit_ops] using this
  · intro hpc hd
    simp [step, init_wqdemo, exit_wqdemo, hpc, hd]
  · intro h14
    simp [h.done_iff, hpast h14]
  · intro hpc
    simp [step, init_wqdemo, exit_wqdemo, hpc]
  · intro hpc
    have hfreed : s.freed = false := by
      have h1 := h.freed_iff
      have h2 := h.usage_eq
      simp [hok, hpc, sup_refs_vals] at h1 h2
      simp [h1, h2]
    have hstep : step env s .sup =
        some { s with
          spc := .l142
          wtask := try_to_wake_up s.wtask
          trace := s.trace ++ [(.exit_wqdemo, .wake_up_process)] } := by
      simp [step, init_wqdemo, exit_wqdemo, hpc, hok, hfreed, State.emit, State.deref_ok,
        wake_up_process]
    refine ⟨hstep, ?_⟩
    intro hpark
    refine ⟨_, hstep, ?_⟩
    rcases hpark with hp | hp <;> simp [hp, try_to_wake_up_vals]
  · intro hpc hd
    simp [step, init_wqdemo, exit_wqdemo, hpc, hd, State.emit]

/-- Witness for C5: the complete run in which exit_wqdemo had to wait, and the
state of that kind of run in which exit_wqdemo stands at line 141 while the
worker is asleep in msleep_interruptible: the nudge makes it TASK_RUNNING. -/
theorem shutdown_waits_for_termination_witness :
    Reachable env_ok (final env_ok sched_waited) ∧
    (final env_ok sched_waited).wqdemo_thread = .task ∧
    (final env_ok sched_waited).spc = .unloaded ∧
    (final env_ok sched_waited).vfork = true ∧
    ((final env_ok sched_waited).done = true ∧ 8 ≤ (final env_ok sched_waited).wpc.idx) ∧
    ops_of .exit_wqdemo (final env_ok sched_waited).trace =
      [.load_vfork_done true, .wake_up_process, .wait_for_completion, .pr .waited,
       .read_exit_code 0, .put_task_struct, .pr (.exited_with 0)] ∧
    Reachable env_ok (final env_ok sched_nudge) ∧
    (final env_ok sched_nudge).wqdemo_thread = .task ∧
    (final env_ok sched_nudge).spc = .l141 ∧
    (final env_ok sched_nudge).wtask = .TASK_INTERRUPTIBLE ∧
    (∃ s', step env_ok (final env_ok sched_nudge) .sup = some s' ∧
      s'.wtask = .TASK_RUNNING) :=
  ⟨reachable_final env_ok sched_waited rfl, by decide, by decide, by decide,
    (shutdown_waits_for_termination env_ok (final env_ok sched_waited)
      (reachable_final env_ok sched_waited rfl) (by decide)).1 (by decide),
    (shutdown_waits_for_termination env_ok (final env_ok sched_waited)
      (reachable_final env_ok sched_waited rfl) (by decide)).2.1 (by decide) (by decide),
    reachable_final env_ok sched_nudge rfl, by decide, by decide, by decide,
    ((shutdown_waits_for_termination env_ok (final env_ok sched_nudge)
      (reachable_final env_ok sched_nudge rfl) (by decide)).2.2.2.2.2.1 (by decide)).2
      (Or.inl (by decide))⟩

/-- C6 (shutdown on a pre-terminated worker): after a successful spawn, if
vfork_done is already NULL when exit_wqdemo is called, then the worker's exit
status is its do_exit code 0, and six supervisor steps alone (no worker step, so
no blocking) complete exit_wqdemo with history: load NULL, read exit_code,
put_task_struct, final line; no wake_up_process and no wait_for_completion
occur and the status obtained is the worker's.  The same history holds in any
interleaving that ends with the load having returned NULL. -/
theorem shutdown_on_pre_terminated_worker (env : Env) (s : State) (hr : Reachable env s)
    (hok : s.wqdemo_thread = .task) :
    (s.spc = .loaded → s.vfork_done = false →
      s.exit_code = 0 ∧
      ∃ s', run env s [.sup, .sup, .sup, .sup, .sup, .sup] = some s' ∧
        s'.spc = .unloaded ∧ s'.ret = s.exit_code ∧
        ops_of .exit_wqdemo s'.trace =
          [.load_vfork_done false, .read_exit_code s.exit_code, .put_task_struct,
           .pr (.exited_with s.exit_code)]) ∧
    (s.spc = .unloaded → s.vfork = false →
      s.ret = 0 ∧
      ops_of .exit_wqdemo s.trace =
        [.load_vfork_done false, .read_exit_code 0, .put_task_struct,
         .pr (.exited_with 0)]) := by
  have h := reachable_inv env s hr
  have hsp := spawn_none_of_task env s h hok
  refine ⟨?_, ?_⟩
  · intro hpc hv
    have hw : 8 ≤ s.wpc.idx := by
      have h1 := h.vfork_live
      have h2 := (h.path_ok hsp).2.2 (by simp [hpc, sup_idx_vals])
      rw [hv] at h1
      simp at h1
      omega
    have hfreed : s.freed = false := by
      have h1 := h.freed_iff
      have h2 := h.usage_eq
      simp [hok, hpc, sup_refs_vals] at h1 h2
      simp [h1, h2]
    have hex := h.exit_hist
    simp [hpc, exit_ops] at hex
    refine ⟨h.code_set hw, ?_⟩
    simp [run, step, init_wqdemo, exit_wqdemo, hpc, hv, hok, hfreed, State.emit, State.deref_ok,
      put_task_struct]
    rw [ops_of_append, hex]
    simp [ops_of]
  · intro hpc hv
    have hret := h.ret_zero (by simp [hpc, sup_idx_vals]) (by simp [hpc, sup_idx_vals])
    have := h.exit_hist
    exact ⟨hret, by simpa [hpc, hv, hret, exit_ops] using this⟩

/-- Witness for C6: the worker has terminated and dropped its reference before
exit_wqdemo is called. -/
theorem shutdown_on_pre_terminated_worker_witness :
    Reachable env_ok (final env_ok sched_worker_gone) ∧
    (final env_ok sched_worker_gone).wqdemo_thread = .task ∧
    (final env_ok sched_worker_gone).spc = .loaded ∧
    (final env_ok sched_worker_gone).vfork_done = false ∧
    (((final env_ok sched_worker_gone).spc = .loaded →
        (final env_ok sched_worker_gone).vfork_done = false →
        (final env_ok sched_worker_gone).exit_code = 0 ∧
        ∃ s', run env_ok (final env_ok sched_worker_gone)
            [.sup, .sup, .sup, .sup, .sup, .sup] = some s' ∧
          s'.spc = .unloaded ∧ s'.ret = (final env_ok sched_worker_gone).exit_code ∧
          ops_of .exit_wqdemo s'.trace =
            [.load_vfork_done false,
             .read_exit_code (final env_ok sched_worker_gone).exit_code,
             .put_task_struct,
             .pr (.exited_with (final env_ok sched_worker_gone).exit_code)]) ∧
     ((final env_ok sched_worker_gone).spc = .unloaded →
        (final env_ok sched_worker_gone).vfork = false →
        (final env_ok sched_worker_gone).ret = 0 ∧
        ops_of .exit_wqdemo (final env_ok sched_worker_gone).trace =
          [.load_vfork_done false, .read_exit_code 0, .put_task_struct,
           .pr (.exited_with 0)])) :=
  ⟨reachable_final env_ok sched_worker_gone rfl, by decide, by decide, by decide,
    shutdown_on_pre_terminated_worker env_ok (final env_ok sched_worker_gone)
      (reachable_final env_ok sched_worker_gone rfl) (by decide)⟩

/-- C7 (reference safety): in every reachable state after a successful spawn,
as long as exit_wqdemo has not executed put_task_struct (supervisor at line 149
or earlier) the reference count is at least 1 and the handle is not destroyed;
the handle is destroyed exactly when the count is 0; and while the supervisor is
still at get_task_struct or wake_up_process (lines 62-63) the worker has not
run: it is parked at line 24 with the flag still 0. -/
theorem reference_safety (env : Env) (s : State) (hr : Reachable env s)
    (hok : s.wqdemo_thread = .task) :
    (s.spc.idx ≤ 16 → 1 ≤ s.usage ∧ s.freed = false) ∧
    (s.freed = true ↔ s.usage = 0) ∧
    (s.spc.idx ≤ 3 → s.wpc = .l24 ∧ s.wtask = .TASK_UNINTERRUPTIBLE ∧
      s.wqdemo_thread_started = 0) := by
  have h := reachable_inv env s hr
  have hsp := spawn_none_of_task env s h hok
  have hpos := sup_idx_pos_of_task env s h hok
  have hu := h.usage_eq
  have hf := h.freed_iff
  simp only [hok, if_true, true_and] at hu hf
  refine ⟨?_, by simp [hf], ?_⟩
  · intro h16
    have h1 : 1 ≤ s.usage := by
      by_cases h3 : s.spc.idx ≤ 3
      · have hun := h.unwoken hsp hpos h3
        simp [hu, hun.1, work_refs_vals]
      · have : s.spc.refs = 1 := by
          simp only [SupPc.refs]
          rw [if_pos ⟨by omega, h16⟩]
        omega
    exact ⟨h1, by simp [hf]; omega⟩
  · intro h3
    have hun := h.unwoken hsp hpos h3
    exact ⟨hun.1, hun.2, h.flag_clear (by simp [hun.1, work_idx_vals])⟩

/-- Witness for C7: the interleaving in which the worker terminates and releases
its own reference before exit_wqdemo starts; the supervisor's reference keeps
the count at 1. -/
theorem reference_safety_witness :
    Reachable env_ok (final env_ok sched_worker_gone) ∧
    (final env_ok sched_worker_gone).wqdemo_thread = .task ∧
    (final env_ok sched_worker_gone).wpc = .dead ∧
    (final env_ok sched_worker_gone).usage = 1 ∧
    (((final env_ok sched_worker_gone).spc.idx ≤ 16 →
        1 ≤ (final env_ok sched_worker_gone).usage ∧
        (final env_ok sched_worker_gone).freed = false) ∧
     ((final env_ok sched_worker_gone).freed = true ↔
        (final env_ok sched_worker_gone).usage = 0) ∧
     ((final env_ok sched_worker_gone).spc.idx ≤ 3 →
        (final env_ok sched_worker_gone).wpc = .l24 ∧
        (final env_ok sched_worker_gone).wtask = .TASK_UNINTERRUPTIBLE ∧
        (final env_ok sched_worker_gone).wqdemo_thread_started = 0)) :=
  ⟨reachable_final env_ok sched_worker_gone rfl, by decide, by decide, by decide,
    reference_safety env_ok (final env_ok sched_worker_gone)
      (reachable_final env_ok sched_worker_gone rfl) (by decide)⟩

/-- C8 (shutdown releases exactly once): after a successful spawn, the step at
line 149 is enabled and lowers the reference count by exactly 1; when
exit_wqdemo has returned, its history (on either branch) reads exit_code
before its single put_task_struct, and the count is 0 with the handle destroyed
if the worker has dropped its own reference, and 1 with the handle alive
otherwise. -/
theorem shutdown_releases_once (env : Env) (s : State) (hr : Reachable env s)
    (hok : s.wqdemo_thread = .task) :
    (s.spc = .l149 →
      ∃ s', step env s .sup = some s' ∧ s'.spc = .l150 ∧ s'.usage + 1 = s.usage ∧
        s'.trace = s.trace ++ [(.exit_wqdemo, .put_task_struct)]) ∧
    (s.spc = .unloaded →
      ops_of .exit_wqdemo s.trace =
        .load_vfork_done s.vfork ::
          (if s.vfork then [.wake_up_process, .wait_for_completion, .pr .waited] else []) ++
          [.read_exit_code s.ret, .put_task_struct, .pr (.exited_with s.ret)] ∧
      (s.wpc = .dead → s.usage = 0 ∧ s.freed = true) ∧
      (s.wpc ≠ .dead → s.usage = 1 ∧ s.freed = false)) := by
  have h := reachable_inv env s hr
  have hu := h.usage_eq
  have hf := h.freed_iff
  simp only [hok, if_true, true_and] at hu hf
  refine ⟨?_, ?_⟩
  · intro hpc
    simp only [hpc, sup_refs_vals] at hu
    have hfreed : s.freed = false := by simp [hf, hu]
    simp [step, init_wqdemo, exit_wqdemo, hpc, hok, hfreed, State.emit, State.deref_ok,
      put_task_struct]
    omega
  · intro hpc
    have hw := h.past_wait (by simp [hpc, sup_idx_vals]) (by simp [hpc, sup_idx_vals])
    have hex := h.exit_hist
    simp only [hpc, sup_refs_vals] at hu
    refine ⟨by simpa [hpc, exit_ops] using hex, ?_, ?_⟩
    · intro hd
      simp [hd, work_refs_vals] at hu
      simp [hf, hu]
    · intro hd
      have hz : s.wpc = .zombie := by
        cases hwp : s.wpc <;> simp [hwp, work_idx_vals] at hw hd ⊢
      simp [hz, work_refs_vals] at hu
      simp [hf, hu]

/-- Witness for C8: a complete run on the branch that does not wait; the worker
had already dropped its reference, so the put destroys the handle. -/
theorem shutdown_releases_once_witness :
    Reachable env_ok (final env_ok sched_gone_then_exit) ∧
    (final env_ok sched_gone_then_exit).wqdemo_thread = .task ∧
    (final env_ok sched_gone_then_exit).spc = .unloaded ∧
    (final env_ok sched_gone_then_exit).usage = 0 ∧
    (final env_ok sched_gone_then_exit).freed = true ∧
    (((final env_ok sched_gone_then_exit).spc = .l149 →
        ∃ s', step env_ok (final env_ok sched_gone_then_exit) .sup = some s' ∧
          s'.spc = .l150 ∧ s'.usage + 1 = (final env_ok sched_gone_then_exit).usage ∧
          s'.trace =
            (final env_ok sched_gone_then_exit).trace ++ [(.exit_wqdemo, .put_task_struct)]) ∧
     ((final env_ok sched_gone_then_exit).spc = .unloaded →
        ops_of .exit_wqdemo (final env_ok sched_gone_then_exit).trace =
          .load_vfork_done (final env_ok sched_gone_then_exit).vfork ::
            (if (final env_ok sched_gone_then_exit).vfork then
              [.wake_up_process, .wait_for_completion, .pr .waited] else []) ++
            [.read_exit_code (final env_ok sched_gone_then_exit).ret, .put_task_struct,
             .pr (.exited_with (final env_ok sched_gone_then_exit).ret)] ∧
        ((final env_ok sched_gone_then_exit).wpc = .dead →
          (final env_ok sched_gone_then_exit).usage = 0 ∧
          (final env_ok sched_gone_then_exit).freed = true) ∧
        ((final env_ok sched_gone_then_exit).wpc ≠ .dead →
          (final env_ok sched_gone_then_exit).usage = 1 ∧
          (final env_ok sched_gone_then_exit).freed = false))) :=
  ⟨reachable_final env_ok sched_gone_then_exit rfl, by decide, by decide, by decide, by decide,
    shutdown_releases_once env_ok (final env_ok sched_gone_then_exit)
      (reachable_final env_ok sched_gone_then_exit rfl) (by decide)⟩

/-- Counterexample for C9 as stated: a complete successful run (start, worker
termination, stop) whose kernel log consists of the worker's line and the two
lines of exit_wqdemo; no line in it was printed by init_wqdemo, so there is no
line at the readiness rendezvous. -/
theorem complete_run_has_no_readiness_line :
    Reachable env_ok (final env_ok sched_waited) ∧
    (final env_ok sched_waited).wqdemo_thread = .task ∧
    (final env_ok sched_waited).init_ret = some 0 ∧
    (final env_ok sched_waited).wpc = .dead ∧
    (final env_ok sched_waited).spc = .unloaded ∧
    klog (final env_ok sched_waited).trace =
      [(.wqdemo_thread_fn, .woke_up), (.exit_wqdemo, .waited),
       (.exit_wqdemo, .exited_with 0)] ∧
    ¬ ∃ l, (Func.init_wqdemo, l) ∈ klog (final env_ok sched_waited).trace := by
  have hlog : klog (final env_ok sched_waited).trace =
      [(.wqdemo_thread_fn, .woke_up), (.exit_wqdemo, .waited),
       (.exit_wqdemo, .exited_with 0)] := by decide
  refine ⟨reachable_final env_ok sched_waited rfl, by decide, by decide, by decide, by decide,
    hlog, ?_⟩
  rw [hlog]
  simp

/-- C9 (diagnostic log lines), amended: for every run with a successful spawn in
which exit_wqdemo has returned, the kernel log is exactly the worker's
termination line, then the "waited" line of exit_wqdemo if and only if it had to
wait, then the final line of exit_wqdemo carrying the worker's exit status 0; in
particular the worker's line precedes the shutdown line, and init_wqdemo
contributes no line. -/
theorem log_lines_of_complete_run (env : Env) (s : State) (hr : Reachable env s)
    (hok : s.wqdemo_thread = .task) (hpc : s.spc = .unloaded) :
    klog s.trace =
      [(.wqdemo_thread_fn, .woke_up)] ++
        (if s.vfork then [(.exit_wqdemo, .waited)] else []) ++
        [(.exit_wqdemo, .exited_with 0)] ∧
    (∀ l, (Func.init_wqdemo, l) ∉ klog s.trace) := by
  have h := reachable_inv env s hr
  have hsp := spawn_none_of_task env s h hok
  have hw := h.past_wait (by simp [hpc, sup_idx_vals]) (by simp [hpc, sup_idx_vals])
  have hret := h.ret_zero (by simp [hpc, sup_idx_vals]) (by simp [hpc, sup_idx_vals])
  have hl := h.log_hist
  have hwl : worker_log s.wpc = [(.wqdemo_thread_fn, .woke_up)] := by
    simp only [worker_log]
    rw [if_pos (by omega)]
  have hlog : klog s.trace =
      [(.wqdemo_thread_fn, .woke_up)] ++
        (if s.vfork then [(.exit_wqdemo, .waited)] else []) ++
        [(.exit_wqdemo, .exited_with 0)] := by
    rw [hl, hwl]
    simp [hsp, hpc, hret, init_log, exit_log]
  refine ⟨hlog, ?_⟩
  intro l hmem
  rw [hlog] at hmem
  cases hv : s.vfork <;> simp [hv] at hmem

/-- Witness for amended C9: a complete run on the branch that does not wait. -/
theorem log_lines_of_complete_run_witness :
    Reachable env_ok (final env_ok sched_gone_then_exit) ∧
    (final env_ok sched_gone_then_exit).wqdemo_thread = .task ∧
    (final env_ok sched_gone_then_exit).spc = .unloaded ∧
    (klog (final env_ok sched_gone_then_exit).trace =
        [(.wqdemo_thread_fn, .woke_up)] ++
          (if (final env_ok sched_gone_then_exit).vfork then [(.exit_wqdemo, .waited)]
            else []) ++
          [(.exit_wqdemo, .exited_with 0)] ∧
      (∀ l, (Func.init_wqdemo, l) ∉ klog (final env_ok sched_gone_then_exit).trace)) :=
  ⟨reachable_final env_ok sched_gone_then_exit rfl, by decide, by decide,
    log_lines_of_complete_run env_ok (final env_ok sched_gone_then_exit)
      (reachable_final env_ok sched_gone_then_exit rfl) (by decide) (by decide)⟩

/-- C10 (the worker terminates regardless of wake cause): in every reachable
state, for every value the timed sleep may return (env.sleep_left is arbitrary):
a worker that has reached its sleep has already set the flag to 1; from the
sleep, four worker steps yield exactly the state in which it has logged, called
do_exit(0) (exit_code 0, completion fired) and dropped its reference, the sleep's
result appearing only in the recorded history; under any interleaving the worker
is never blocked between its sleep and its end; its exit_code is 0 once it is
past do_exit; and when exit_wqdemo has returned the status it read and printed
is 0. -/
theorem worker_terminates_regardless_of_wake (env : Env) (s : State)
    (hr : Reachable env s) :
    (5 ≤ s.wpc.idx → s.wqdemo_thread_started = 1) ∧
    (s.wpc = .sleeping →
      run env s [.worker, .worker, .worker, .worker] =
        some { s with
          wpc := .dead
          wtask := .TASK_DEAD
          exit_code := 0
          vfork_done := false
          done := true
          usage := s.usage - 1
          freed := s.freed || decide (s.usage - 1 = 0)
          trace := s.trace ++
            [(.wqdemo_thread_fn, .msleep_interruptible env.sleep_left),
             (.wqdemo_thread_fn, .pr .woke_up),
             (.wqdemo_thread_fn, .do_exit 0),
             (.wqdemo_thread_fn, .release)] }) ∧
    (5 ≤ s.wpc.idx → s.wpc.idx ≤ 8 →
      ∃ s', step env s .worker = some s' ∧ s'.wpc.idx = s.wpc.idx + 1) ∧
    (8 ≤ s.wpc.idx → s.exit_code = 0) ∧
    (s.spc = .unloaded →
      s.ret = 0 ∧ (Func.exit_wqdemo, LogLine.exited_with 0) ∈ klog s.trace) := by
  have h := reachable_inv env s hr
  refine ⟨fun hw => h.flag_set (by omega), ?_, ?_, h.code_set, ?_⟩
  · intro hpc
    simp [run, step, wqdemo_thread_fn, hpc, State.emit, do_exit, put_task_struct]
  · intro h5 h8
    have hsp := sup_in_wait_of_worker_started env s h (by omega)
    cases hpc : s.wpc <;> simp [hpc, work_idx_vals] at h5 h8
    · simp [step, wqdemo_thread_fn, hpc, State.emit, work_idx_vals]
    · have := h.wrun (by simp [hpc, work_idx_vals]) (by simp [hpc, work_idx_vals])
        (by simp [hpc, work_idx_vals]) hsp
      simp [step, wqdemo_thread_fn, hpc, State.emit, work_idx_vals, this]
    · have := h.wrun (by simp [hpc, work_idx_vals]) (by simp [hpc, work_idx_vals])
        (by simp [hpc, work_idx_vals]) hsp
      simp [step, wqdemo_thread_fn, hpc, State.emit, work_idx_vals, this]
    · simp [step, wqdemo_thread_fn, hpc, State.emit, work_idx_vals]
  · intro hpc
    have hret := h.ret_zero (by simp [hpc, sup_idx_vals]) (by simp [hpc, sup_idx_vals])
    have hl := h.log_hist
    refine ⟨hret, ?_⟩
    rw [hl]
    simp [hpc, hret, exit_log]

/-- Witness for C10: the worker asleep at line 31, its sleep about to return
early with 3 units left. -/
theorem worker_terminates_regardless_of_wake_witness :
    Reachable env_ok (final env_ok sched_sleeping) ∧
    (final env_ok sched_sleeping).wpc = .sleeping ∧
    ((run env_ok (final env_ok sched_sleeping) [.worker, .worker, .worker, .worker]).map
      fun s => (s.wpc, s.exit_code, s.done)) = some (.dead, 0, true) ∧
    (5 ≤ (final env_ok sched_sleeping).wpc.idx →
      (final env_ok sched_sleeping).wqdemo_thread_started = 1) :=
  ⟨reachable_final env_ok sched_sleeping rfl, by decide, by decide,
    (worker_terminates_regardless_of_wake env_ok (final env_ok sched_sleeping)
      (reachable_final env_ok sched_sleeping rfl)).1⟩

end WqDemo
